import Mathlib

/-!
Shallow embedding of `src/main.py` (transpose_docx_tables): extraction of
readable text from a parsed docx document tree, converting tables into
bordered blocks of `header: value` lines.

The document tree produced by the external loader is a nested list:
sections (called "tables" in the code) → rows → cells → paragraph strings.
The monkey-patched loader prepends a one-cell sentinel row to every true
table; the renderer classifies each section by probing `[0][0][0]`.

Python mutation is made explicit: `_combine_headers` pops rows from the
list it is handed, so its embedding returns the combined headers together
with the remaining rows (the post-state of that list).
-/

/-- A cell is a list of paragraph strings (docx2python depth-4 body). -/
abbrev Cell := List String

/-- A row is a list of cells. -/
abbrev Row := List Cell

/-- A top-level section of the document body: a list of rows.  The code calls
these "tables" even when they hold plain paragraph content. -/
abbrev DocSection := List Row

/-- Sentinel added as a new first row of each true table (`OPEN_TABLE_MARKER`,
`src/main.py` line 20). -/
def OPEN_TABLE_MARKER : String := "4e62660e-8342-4222-8530-d4ff65856687"

/-- Border put above and below each rendered table row (`TABLE_BORDER`,
`src/main.py` line 24: twenty dashes). -/
def TABLE_BORDER : String := "--------------------"

/-- Separator used when header rows are combined (`HEADER_SEPARATOR`,
`src/main.py` line 28). -/
def HEADER_SEPARATOR : String := " _ "

/-- Embedding of `iter_text_paragraphs` (line 63): `iter_at_depth(not_a_table, 3)`
yields, in order, every element at nesting depth 3 of the section, i.e. every
paragraph string of every cell of every row. -/
def iter_text_paragraphs (not_a_table : DocSection) : List String :=
  (not_a_table.map List.flatten).flatten

/-- Embedding of `_are_all_unique` (line 68): `len(seq) == len(set(seq))`.
The length of the Python set is the number of distinct elements, i.e. the
length of `seq.dedup`. -/
def _are_all_unique (seq : List String) : Bool :=
  seq.length == seq.dedup.length

/-- Embedding of `_join_table_cell` (line 73): join a cell's paragraphs with
the literal `<br>`. -/
def _join_table_cell (cell : Cell) : String :=
  String.intercalate "<br>" cell

/-- Embedding of `_join_table_row_cells` (line 78). -/
def _join_table_row_cells (row : Row) : List String :=
  row.map _join_table_cell

/-- One combining step of `_combine_headers` (line 112):
`[HEADER_SEPARATOR.join(h) for h in zip(headers, next_header_row)]` where
`next_header_row = _join_table_row_cells(row)`.  `zip` truncates to the
shorter operand, and joining a pair with the separator is
`first ++ separator ++ second`. -/
def combine_step (headers : List String) (row : Row) : List String :=
  (headers.zip (_join_table_row_cells row)).map
    (fun p => p.1 ++ HEADER_SEPARATOR ++ p.2)

/-- Embedding of the `while not _are_all_unique(headers)` loop of
`_combine_headers` (lines 106-112).  Each iteration pops the next row from
the list; when the pop raises `IndexError` the code raises
`ValueError("Cannot create a unique header for each column.")`.  The result
carries the remaining rows, i.e. the post-state of the mutated list. -/
def combine_loop (headers : List String) (rows : List Row) :
    Except String (List String × List Row) :=
  if _are_all_unique headers then
    .ok (headers, rows)
  else
    match rows with
    | [] => .error "Cannot create a unique header for each column."
    | r :: rest => combine_loop (combine_step headers r) rest

/-- Embedding of `_combine_headers` (lines 83-113).  The first
`table.pop(0)` (line 105) is outside the `try`, so on an empty list the
`IndexError` itself propagates; the caller (`iter_table_paragraphs`) only
calls this with at least two rows. -/
def _combine_headers (table : List Row) : Except String (List String × List Row) :=
  match table with
  | [] => .error "IndexError: pop from empty list"
  | r :: rest => combine_loop (_join_table_row_cells r) rest

/-- The `header: value` lines produced for one data row
(line 139: `[f"{h}: {c}" for h, c in zip(headers, row_cells)]`). -/
def data_row_lines (headers : List String) (row : Row) : List String :=
  (headers.zip (_join_table_row_cells row)).map (fun p => p.1 ++ ": " ++ p.2)

/-- The output paragraph produced for one data row (lines 137-141): border,
the `header: value` lines, border, joined by newlines. -/
def render_data_row (headers : List String) (row : Row) : String :=
  String.intercalate "\n" ([TABLE_BORDER] ++ data_row_lines headers row ++ [TABLE_BORDER])

/-- Embedding of `iter_table_paragraphs` (lines 116-141).  `table = table[1:]`
slices off the sentinel row into a fresh list; otherwise headers are combined
(mutating the fresh list) and each remaining row becomes one bordered
paragraph.  The function is a generator (it contains `yield` at line 140), so
the `return iter_text_paragraphs(table)` at line 132 for a table with at most
one remaining row only ends the iteration: the returned iterator becomes the
discarded `StopIteration` value and the `yield from` at line 153 yields
nothing for such a table.  The faithful result of that branch is therefore
the empty paragraph list, not the plain-content rendering the comment above
it announces. -/
def iter_table_paragraphs (table : DocSection) : Except String (List String) :=
  if (table.drop 1).length ≤ 1 then
    .ok []
  else
    match _combine_headers (table.drop 1) with
    | .error e => .error e
    | .ok (headers, rest) => .ok (rest.map (render_data_row headers))

/-- The classification probe `potential_table[0][0][0]` (line 148), as a
partial lookup: `none` models the `IndexError` at any missing level. -/
def classify_probe (s : DocSection) : Option String :=
  s.head?.bind fun row => row.head?.bind fun cell => cell.head?

/-- Classification in `iter_text_and_table_paragraphs` (lines 147-150):
`is_table = potential_table[0][0][0] == OPEN_TABLE_MARKER`, with the
`IndexError` swallowed into `False`. -/
def is_table (s : DocSection) : Bool :=
  classify_probe s == some OPEN_TABLE_MARKER

/-- Embedding of `iter_text_and_table_paragraphs` (lines 144-155), consumed
strictly by `list(...)` in the entry point: the first error raised while
rendering any section aborts the whole run with no output. -/
def iter_text_and_table_paragraphs : List DocSection → Except String (List String)
  | [] => .ok []
  | s :: rest =>
      (if is_table s then iter_table_paragraphs s else .ok (iter_text_paragraphs s)).bind
        (fun ps => (iter_text_and_table_paragraphs rest).bind
          (fun qs => .ok (ps ++ qs)))

/-- Output of `iter_table_paragraphs` paired with the caller-visible state of
the section afterwards.  `table = table[1:]` (line 127) allocates a new list
and rebinds the local name; every later mutation (`table.pop(0)` inside
`_combine_headers`) acts on that fresh list, so the section object held by
the caller is unchanged when rendering finishes. -/
def iter_table_paragraphs_with_post (table : DocSection) :
    Except String (List String) × DocSection :=
  (iter_table_paragraphs table, table)

/-- Classification predicate as worded by the spec claim: the section's
first row contains exactly one cell whose first paragraph equals the
sentinel marker.  Stated for comparison with `is_table`. -/
def spec_is_table (s : DocSection) : Bool :=
  match s.head? with
  | none => false
  | some row => row.countP (fun cell => cell.head? == some OPEN_TABLE_MARKER) == 1

/-! Helper lemmas shared by the claim theorems. -/

/-- `_are_all_unique` is the executable counterpart of `List.Nodup`. -/
theorem are_all_unique_iff (s : List String) : _are_all_unique s = true ↔ s.Nodup := by
  unfold _are_all_unique
  rw [beq_iff_eq]
  constructor
  · intro h
    have hd := List.dedup_sublist s
    have heq : s.dedup = s := hd.eq_of_length h.symm
    rw [← heq]
    exact List.nodup_dedup s
  · intro h
    rw [List.dedup_eq_self.mpr h]

/-- When the combining loop returns, the returned headers pass the uniqueness
check and the returned remaining rows are a suffix of the rows it was handed. -/
theorem combine_loop_ok : ∀ (rows : List Row) (headers hs : List String) (rest : List Row),
    combine_loop headers rows = .ok (hs, rest) →
    _are_all_unique hs = true ∧ ∃ k, k ≤ rows.length ∧ rest = rows.drop k := by
  intro rows
  induction rows with
  | nil =>
      intro headers hs rest h
      unfold combine_loop at h
      by_cases hu : _are_all_unique headers = true
      · rw [if_pos hu] at h
        obtain ⟨rfl, rfl⟩ : headers = hs ∧ ([] : List Row) = rest := by
          simpa using h
        exact ⟨hu, 0, by simp⟩
      · rw [if_neg hu] at h
        exact Except.noConfusion h
  | cons r rs ih =>
      intro headers hs rest h
      unfold combine_loop at h
      by_cases hu : _are_all_unique headers = true
      · rw [if_pos hu] at h
        obtain ⟨rfl, rfl⟩ : headers = hs ∧ r :: rs = rest := by
          simpa using h
        exact ⟨hu, 0, by simp⟩
      · rw [if_neg hu] at h
        obtain ⟨huniq, k, hk, hrest⟩ := ih (combine_step headers r) hs rest h
        refine ⟨huniq, k + 1, by simpa using Nat.succ_le_succ hk, ?_⟩
        simpa using hrest

/-- The only error the combining loop ever produces is the descriptive
uniqueness-failure message. -/
theorem combine_loop_error_msg : ∀ (rows : List Row) (headers : List String) (e : String),
    combine_loop headers rows = .error e →
    e = "Cannot create a unique header for each column." := by
  intro rows
  induction rows with
  | nil =>
      intro headers e h
      unfold combine_loop at h
      by_cases hu : _are_all_unique headers = true
      · rw [if_pos hu] at h
        exact Except.noConfusion h
      · rw [if_neg hu] at h
        injection h with h1
        exact h1.symm
  | cons r rs ih =>
      intro headers e h
      unfold combine_loop at h
      by_cases hu : _are_all_unique headers = true
      · rw [if_pos hu] at h
        exact Except.noConfusion h
      · rw [if_neg hu] at h
        exact ih (combine_step headers r) e h

/-- The combining loop fails exactly when every number of combining steps the
available rows allow, including zero, still leaves a non-unique header list. -/
theorem combine_loop_error_iff : ∀ (rows : List Row) (headers : List String),
    combine_loop headers rows = .error "Cannot create a unique header for each column." ↔
      ∀ i ≤ rows.length,
        _are_all_unique ((rows.take i).foldl combine_step headers) = false := by
  intro rows
  induction rows with
  | nil =>
      intro headers
      unfold combine_loop
      by_cases hu : _are_all_unique headers = true
      · rw [if_pos hu]
        constructor
        · intro h
          exact Except.noConfusion h
        · intro h
          exact absurd hu (by simpa using h 0 (by simp))
      · rw [if_neg hu]
        constructor
        · intro _ i hi
          have hi0 : i = 0 := Nat.le_zero.mp hi
          subst hi0
          simpa using Bool.eq_false_iff.mpr hu
        · intro _
          rfl
  | cons r rs ih =>
      intro headers
      unfold combine_loop
      by_cases hu : _are_all_unique headers = true
      · rw [if_pos hu]
        constructor
        · intro h
          exact Except.noConfusion h
        · intro h
          exact absurd hu (by simpa using h 0 (by simp))
      · rw [if_neg hu]
        rw [ih (combine_step headers r)]
        constructor
        · intro h i hi
          match i with
          | 0 => simpa using Bool.eq_false_iff.mpr hu
          | j + 1 =>
              have hj : j ≤ rs.length := by simpa using hi
              simpa using h j hj
        · intro h j hj
          have hstep := h (j + 1) (by simpa using Nat.succ_le_succ hj)
          simpa using hstep

/-- Unfolding of the dispatcher on one leading section. -/
theorem iter_cons (s : DocSection) (rest : List DocSection) :
    iter_text_and_table_paragraphs (s :: rest) =
      (if is_table s then iter_table_paragraphs s else .ok (iter_text_paragraphs s)).bind
        (fun ps => (iter_text_and_table_paragraphs rest).bind
          (fun qs => .ok (ps ++ qs))) := rfl

/-- One section failing its table rendering makes the whole run fail. -/
theorem iter_error_propagates : ∀ (sections : List DocSection) (t : DocSection) (e : String),
    t ∈ sections → is_table t = true → iter_table_paragraphs t = .error e →
    ∃ q, iter_text_and_table_paragraphs sections = .error q := by
  intro sections
  induction sections with
  | nil =>
      intro t e ht
      exact absurd ht (List.not_mem_nil t)
  | cons s rest ih =>
      intro t e ht htab herr
      rw [List.mem_cons] at ht
      rw [iter_cons]
      rcases ht with rfl | hmem
      · refine ⟨e, ?_⟩
        rw [if_pos htab, herr]
        rfl
      · obtain ⟨q, hq⟩ := ih t e hmem htab herr
        cases hhead : (if is_table s then iter_table_paragraphs s
            else Except.ok (iter_text_paragraphs s)) with
        | error e2 =>
            exact ⟨e2, rfl⟩
        | ok ps =>
            exact ⟨q, by rw [hq]; rfl⟩

/-- Shape of table rendering once the sentinel row is dropped and at least a
header row and one further row remain. -/
theorem iter_table_paragraphs_eq (t : DocSection) (r0 : Row) (rest : List Row)
    (hshape : t.drop 1 = r0 :: rest) (hne : rest ≠ []) :
    iter_table_paragraphs t =
      match combine_loop (_join_table_row_cells r0) rest with
      | .error e => .error e
      | .ok (headers, rs) => .ok (rs.map (render_data_row headers)) := by
  unfold iter_table_paragraphs
  rw [hshape]
  have hlen : ¬ ((r0 :: rest).length ≤ 1) := by
    cases rest with
    | nil => exact absurd rfl hne
    | cons b bs => simp
  rw [if_neg hlen]
  rfl

/-- Zipping only consumes the prefix of the left list matching the right
list's length. -/
theorem zip_eq_zip_take : ∀ (l1 l2 : List String), l1.zip l2 = (l1.take l2.length).zip l2 := by
  intro l1
  induction l1 with
  | nil =>
      intro l2
      simp
  | cons a as ih =>
      intro l2
      cases l2 with
      | nil => simp
      | cons b bs => simp [ih bs]

/-! Claim theorems. -/

/-- C3: for every table on which header combination completes without
raising an error, the returned header sequence contains no duplicates. -/
theorem c3_headers_nodup (table : List Row) (headers : List String) (rest : List Row)
    (h : _combine_headers table = .ok (headers, rest)) : headers.Nodup := by
  cases table with
  | nil => exact Except.noConfusion h
  | cons r rs =>
      have hu := (combine_loop_ok rs (_join_table_row_cells r) headers rest h).1
      exact (are_all_unique_iff headers).mp hu

/-- C3 witness: header combination of a concrete two-column table returns
the duplicate-free header list. -/
theorem c3_headers_nodup_witness : (["A", "B"] : List String).Nodup :=
  c3_headers_nodup [[["A"], ["B"]], [["1"], ["2"]]] ["A", "B"] [[["1"], ["2"]]] rfl

/-- C4: the number of `header: value` lines emitted for a data row is the
minimum of the number of headers and the number of row cells; pairing stops
at the shorter sequence. -/
theorem c4_row_pairing_length (headers : List String) (row : Row) :
    (data_row_lines headers row).length =
      min headers.length (_join_table_row_cells row).length := by
  simp [data_row_lines]

/-- C5: evaluation of the code at the failing input.  For a classified table
holding the sentinel row plus a single header row with text, table rendering
emits no paragraphs at all — the generator's `return iter_text_paragraphs(table)`
is discarded by `yield from` — whereas plain content rendering of the
remaining rows yields that text.  The intended formatting-only fallback (the
spec's wording, and the comment right above the branch: print the contents
as text) does not happen. -/
theorem c5_fallback_discards_text :
    iter_table_paragraphs [[[OPEN_TABLE_MARKER]], [["Header text"]]] = .ok [] ∧
    iter_text_paragraphs
        (([[[OPEN_TABLE_MARKER]], [["Header text"]]] : DocSection).drop 1) =
      ["Header text"] ∧
    ([] : List String) ≠ ["Header text"] := by
  refine ⟨rfl, rfl, by decide⟩

/-- C6: a structural absence at the classification probe (empty section,
empty first row, or empty first cell) is swallowed: the section is
classified as not-a-table and rendered as plain content, no error escapes. -/
theorem c6_structural_absence (s : DocSection)
    (h : s = [] ∨ s.head? = some [] ∨ ∃ r, s.head? = some r ∧ r.head? = some []) :
    is_table s = false ∧
      iter_text_and_table_paragraphs [s] = .ok (iter_text_paragraphs s) := by
  have hp : classify_probe s = none := by
    rcases h with rfl | h1 | ⟨r, hr, hc⟩
    · rfl
    · simp [classify_probe, h1]
    · simp [classify_probe, hr, hc]
  have hit : is_table s = false := by
    simp [is_table, hp]
  refine ⟨hit, ?_⟩
  rw [iter_cons, if_neg (by simp [hit])]
  show Except.ok (iter_text_paragraphs s ++ []) = Except.ok (iter_text_paragraphs s)
  rw [List.append_nil]

/-- C6 witness: a section whose only row is empty is classified as plain
content and rendered without error. -/
theorem c6_structural_absence_witness :
    is_table [([] : Row)] = false ∧
      iter_text_and_table_paragraphs [([([] : Row)] : DocSection)] =
        .ok (iter_text_paragraphs [([] : Row)]) := by
  exact c6_structural_absence [([] : Row)] (Or.inr (Or.inl rfl))

/-- C7: the scenario table with sentinel row, header row `A`,`B` and data
rows `1`,`2` and `3`,`4` renders as exactly two bordered paragraphs of
`header: value` lines, in row order. -/
theorem c7_scenario_two_data_rows :
    iter_text_and_table_paragraphs
      [[[[OPEN_TABLE_MARKER]], [["A"], ["B"]], [["1"], ["2"]], [["3"], ["4"]]]] =
    .ok [String.intercalate "\n" [TABLE_BORDER, "A: 1", "B: 2", TABLE_BORDER],
         String.intercalate "\n" [TABLE_BORDER, "A: 3", "B: 4", TABLE_BORDER]] := rfl

/-- C8: the scenario table with duplicated header row `CAT`,`CAT` pops the
next row and combines per column with the fixed separator, yielding headers
`CAT _ A` and `CAT _ B`, and exactly one data paragraph is emitted. -/
theorem c8_scenario_header_combination :
    _combine_headers [[["CAT"], ["CAT"]], [["A"], ["B"]], [["1"], ["2"]]] =
      .ok (["CAT" ++ HEADER_SEPARATOR ++ "A", "CAT" ++ HEADER_SEPARATOR ++ "B"],
        [[["1"], ["2"]]]) ∧
    iter_table_paragraphs
      [[[OPEN_TABLE_MARKER]], [["CAT"], ["CAT"]], [["A"], ["B"]], [["1"], ["2"]]] =
      .ok [String.intercalate "\n" [TABLE_BORDER, "CAT _ A: 1", "CAT _ B: 2", TABLE_BORDER]] :=
  ⟨rfl, rfl⟩

/-- C1 counterexample: a section whose first row holds two sentinel cells.
The claim's predicate (exactly one matching cell in the first row) calls it
not-a-table, but the code only probes the first cell, classifies it as a
table, and does not render it as plain content: the table renderer returns
no paragraphs while plain content rendering would return two. -/
theorem c1_counterexample :
    ¬ (is_table [[[OPEN_TABLE_MARKER], [OPEN_TABLE_MARKER]]] = true ↔
        spec_is_table [[[OPEN_TABLE_MARKER], [OPEN_TABLE_MARKER]]] = true) ∧
    iter_text_and_table_paragraphs [[[[OPEN_TABLE_MARKER], [OPEN_TABLE_MARKER]]]] =
      .ok [] ∧
    iter_text_paragraphs [[[OPEN_TABLE_MARKER], [OPEN_TABLE_MARKER]]] =
      [OPEN_TABLE_MARKER, OPEN_TABLE_MARKER] ∧
    ([] : List String) ≠ [OPEN_TABLE_MARKER, OPEN_TABLE_MARKER] := by
  refine ⟨by decide, rfl, rfl, by decide⟩

/-- C1 (amended): a section is classified as a table iff its first row's
first cell's first paragraph equals the sentinel marker — regardless of the
other cells of the first row — and every section not satisfying this probe
is rendered as plain content. -/
theorem c1_probe_classification (s : DocSection) (rest : List DocSection) :
    (is_table s = true ↔
      ∃ row, s.head? = some row ∧ ∃ cell, row.head? = some cell ∧
        cell.head? = some OPEN_TABLE_MARKER) ∧
    (is_table s = false →
      iter_text_and_table_paragraphs (s :: rest) =
        (iter_text_and_table_paragraphs rest).map
          (fun qs => iter_text_paragraphs s ++ qs)) := by
  constructor
  · simp [is_table, classify_probe, Option.bind_eq_some]
  · intro hf
    rw [iter_cons, if_neg (by simp [hf])]
    cases hrest : iter_text_and_table_paragraphs rest with
    | error q => rfl
    | ok qs => rfl

/-- C1 witness: a sentinel-free section is rendered as plain content
prepended to the rest of the run. -/
theorem c1_probe_classification_witness :
    iter_text_and_table_paragraphs [[[["x"]]]] =
      (iter_text_and_table_paragraphs []).map
        (fun qs => iter_text_paragraphs [[["x"]]] ++ qs) :=
  (c1_probe_classification [[["x"]]] []).2 (by decide)

/-- C2: header combination fails, with the descriptive uniqueness message,
exactly when every number of combining steps the rows allow still leaves a
duplicated header; in that case the table renderer produces no paragraph
list and the whole extraction run fails. -/
theorem c2_header_exhaustion_fatal (sections : List DocSection) (t : DocSection)
    (r0 : Row) (rest : List Row)
    (ht : t ∈ sections) (htab : is_table t = true)
    (hshape : t.drop 1 = r0 :: rest) (hne : rest ≠ []) :
    (iter_table_paragraphs t = .error "Cannot create a unique header for each column." ↔
      ∀ i ≤ rest.length,
        _are_all_unique ((rest.take i).foldl combine_step (_join_table_row_cells r0)) = false) ∧
    (iter_table_paragraphs t = .error "Cannot create a unique header for each column." →
      (∀ ps, iter_table_paragraphs t ≠ .ok ps) ∧
      ∃ q, iter_text_and_table_paragraphs sections = .error q) := by
  constructor
  · rw [iter_table_paragraphs_eq t r0 rest hshape hne]
    cases hcl : combine_loop (_join_table_row_cells r0) rest with
    | error e =>
        have he := combine_loop_error_msg rest (_join_table_row_cells r0) e hcl
        subst he
        constructor
        · intro _
          exact (combine_loop_error_iff rest (_join_table_row_cells r0)).mp hcl
        · intro _
          rfl
    | ok p =>
        obtain ⟨headers, rs⟩ := p
        constructor
        · intro hcontra
          exact Except.noConfusion hcontra
        · intro hall
          have hmsg := (combine_loop_error_iff rest (_join_table_row_cells r0)).mpr hall
          rw [hmsg] at hcl
          exact Except.noConfusion hcl
  · intro herr
    refine ⟨?_, iter_error_propagates sections t _ ht htab herr⟩
    intro ps hok
    rw [herr] at hok
    exact Except.noConfusion hok

/-- C2 witness: a table whose headers never become unique makes the whole
run fail. -/
theorem c2_header_exhaustion_fatal_witness :
    ∃ q, iter_text_and_table_paragraphs
      [[[[OPEN_TABLE_MARKER]], [["X"], ["X"]], [["Y"], ["Y"]]]] = .error q :=
  ((c2_header_exhaustion_fatal
      [[[[OPEN_TABLE_MARKER]], [["X"], ["X"]], [["Y"], ["Y"]]]]
      [[[OPEN_TABLE_MARKER]], [["X"], ["X"]], [["Y"], ["Y"]]]
      [["X"], ["X"]] [[["Y"], ["Y"]]]
      (List.mem_singleton_self _) (by decide) rfl (List.cons_ne_nil _ _)).2 rfl).2

/-- C9 counterexample: rendering the two-header-row table consumes two rows
during header combination, yet the caller-visible section afterwards is the
unchanged input, not the input with its header rows removed: the renderer
slices `table[1:]` into a fresh list and mutation stays in that copy. -/
theorem c9_counterexample :
    (iter_table_paragraphs_with_post
        [[[OPEN_TABLE_MARKER]], [["CAT"], ["CAT"]], [["A"], ["B"]], [["1"], ["2"]]]).2 =
      [[[OPEN_TABLE_MARKER]], [["CAT"], ["CAT"]], [["A"], ["B"]], [["1"], ["2"]]] ∧
    _combine_headers
        (([[[OPEN_TABLE_MARKER]], [["CAT"], ["CAT"]], [["A"], ["B"]], [["1"], ["2"]]] :
            DocSection).drop 1) =
      .ok (["CAT _ A", "CAT _ B"], [[["1"], ["2"]]]) ∧
    ([[[OPEN_TABLE_MARKER]], [["CAT"], ["CAT"]], [["A"], ["B"]], [["1"], ["2"]]] :
        DocSection) ≠ [[[OPEN_TABLE_MARKER]], [["1"], ["2"]]] := by
  refine ⟨rfl, rfl, by decide⟩

/-- C9 (amended): header combination does consume rows from the row list it
is handed — the remaining rows it returns are a proper suffix of its input —
but the caller-supplied section is unchanged after rendering, because
`iter_table_paragraphs` slices the sentinel off into a fresh list first. -/
theorem c9_local_consumption (table : DocSection) (rows : List Row)
    (headers : List String) (rest : List Row)
    (h : _combine_headers rows = .ok (headers, rest)) :
    (∃ k, 1 ≤ k ∧ k ≤ rows.length ∧ rest = rows.drop k) ∧
    (iter_table_paragraphs_with_post table).2 = table := by
  refine ⟨?_, rfl⟩
  cases rows with
  | nil => exact Except.noConfusion h
  | cons r rs =>
      obtain ⟨-, k, hk, hrest⟩ := combine_loop_ok rs (_join_table_row_cells r) headers rest h
      refine ⟨k + 1, Nat.succ_le_succ (Nat.zero_le k), ?_, ?_⟩
      · simpa using Nat.succ_le_succ hk
      · simpa using hrest

/-- C9 witness: for the two-header-row table, combination consumed two rows
of its local list while the caller-visible section stayed intact. -/
theorem c9_local_consumption_witness :
    (∃ k, 1 ≤ k ∧
      k ≤ ([[["CAT"], ["CAT"]], [["A"], ["B"]], [["1"], ["2"]]] : List Row).length ∧
      ([[["1"], ["2"]]] : List Row) =
        ([[["CAT"], ["CAT"]], [["A"], ["B"]], [["1"], ["2"]]] : List Row).drop k) ∧
    (iter_table_paragraphs_with_post
        [[[OPEN_TABLE_MARKER]], [["CAT"], ["CAT"]], [["A"], ["B"]], [["1"], ["2"]]]).2 =
      [[[OPEN_TABLE_MARKER]], [["CAT"], ["CAT"]], [["A"], ["B"]], [["1"], ["2"]]] :=
  c9_local_consumption
    [[[OPEN_TABLE_MARKER]], [["CAT"], ["CAT"]], [["A"], ["B"]], [["1"], ["2"]]]
    [[["CAT"], ["CAT"]], [["A"], ["B"]], [["1"], ["2"]]]
    ["CAT _ A", "CAT _ B"] [[["1"], ["2"]]] rfl

/-- C10: each combining step zips the current headers with the popped row's
joined cells, truncating to the shorter side (trailing headers beyond the
popped row's width are dropped); an empty popped row empties the headers,
the empty header list passes the uniqueness check so combination returns it
at once, and a data row rendered against zero headers is just the two border
lines. -/
theorem c10_zip_truncation_and_empty (headers : List String) (row : Row)
    (rows : List Row) :
    (combine_step headers row).length =
      min headers.length (_join_table_row_cells row).length ∧
    combine_step headers row =
      combine_step (headers.take (_join_table_row_cells row).length) row ∧
    combine_step headers [] = [] ∧
    combine_loop [] rows = .ok ([], rows) ∧
    data_row_lines [] row = [] ∧
    render_data_row [] row = TABLE_BORDER ++ "\n" ++ TABLE_BORDER := by
  refine ⟨?_, ?_, ?_, ?_, ?_, ?_⟩
  · simp [combine_step]
  · simp only [combine_step]
    rw [← zip_eq_zip_take]
  · simp [combine_step, _join_table_row_cells]
  · unfold combine_loop
    rw [if_pos (by decide)]
  · simp [data_row_lines]
  · rfl
